import Mathlib

/-!
# mmm_arena.h: a bump ("arena") allocator with a process-wide registry

Shallow embedding of `src/mmm_arena.h`.

Data model (LP64): `size_t`, `unsigned long` and pointers are 64 bits wide,
`int` is 32 bits wide.  Machine integers and addresses are natural numbers,
every `size_t` and pointer operation is reduced modulo `2 ^ 64` explicitly.
The null pointer is the address `0`.

The results of the C library calls (`malloc`, `realloc`, `atexit`) are not
determined by the program; each function of the embedding takes them as
arguments (`0` standing for a `NULL` result).
-/

namespace MmmArena

/-! ## Definitions -/

/-- Number of values of a `size_t` (and of a pointer): `2 ^ 64`. -/
def SIZE_RANGE : Nat := 2 ^ 64

/-- The constant `MAX_ARENAS` (line 22). -/
def MAX_ARENAS : Nat := 100

/-- The struct `arena` (lines 11-20).  `ptr` is the base address of the
buffer, `name` is the number that `snprintf` prints into the name field,
`client_ptrs` is the content of the heap array of registered slot addresses
(the empty list when the array pointer is `NULL`). -/
structure arena where
  ptr : Nat
  name : Nat
  capacity : Nat
  current : Nat
  client_ptrs : List Nat
  client_ptr_idx : Nat
  client_ptr_array_size : Nat
  auto_resize : Nat
  deriving DecidableEq, Repr

/-- Memory outside the arena structs: `slots a` is the pointer value held by
the caller's pointer variable at address `a`, `bytes a` is the byte stored at
address `a`. -/
structure Mem where
  slots : Nat → Nat
  bytes : Nat → Nat

/-- Leading zero bits of `x` among the bits `k-1 .. 0`, counted from the top. -/
def clzl_from : Nat → Nat → Nat
  | 0, _ => 0
  | k + 1, x => if x < 2 ^ k then clzl_from k x + 1 else 0

/-- The builtin `__builtin_clzl` on a 64-bit `unsigned long`: the number of
leading zero bits (C leaves the result for `0` undefined; here it is `64`). -/
def clzl (x : Nat) : Nat := clzl_from 64 x

/-- The macro `LOG2(X)` (line 23): `8 * sizeof(uint32_t) - __builtin_clzl(X) - 1`,
evaluated in `size_t` arithmetic, so a negative difference wraps around. -/
def LOG2 (x : Nat) : Nat :=
  (8 * 4 + (SIZE_RANGE - clzl x) + (SIZE_RANGE - 1)) % SIZE_RANGE

/-- The expression `1 << n` of line 112, converted to `size_t`.  The literal
`1` is an `int`, so the shift is a 32-bit shift: for `n ≤ 30` the value is
`2 ^ n`.  For larger counts C leaves the result undefined; the embedding
follows the x86-64 and AArch64 instruction, which uses the count modulo 32,
and the sign extension of the `int` result to 64 bits. -/
def shl_one (n : Nat) : Nat :=
  if 2 ^ (n % 32) < 2 ^ 31 then 2 ^ (n % 32) else 2 ^ (n % 32) + (SIZE_RANGE - 2 ^ 32)

/-- Effect of a moving `realloc` on the bytes: the first `n` bytes of the old
block are copied to the new block. -/
def realloc_bytes (bytes : Nat → Nat) (old new n : Nat) : Nat → Nat :=
  fun a => if new ≤ a ∧ a < new + n then bytes (old + (a - new)) else bytes a

/-- The loop of lines 100-104: for every registered slot address `p`, in
order, `*p += delta` (pointer arithmetic, modulo `2 ^ 64`). -/
def rebase (delta : Nat) : List Nat → (Nat → Nat) → (Nat → Nat)
  | [], slots => slots
  | p :: ps, slots =>
    rebase delta ps (fun a => if a = p then (slots p + delta) % SIZE_RANGE else slots a)

/-- The function `arena_resize` (lines 89-107).  `r` is the value returned by
`realloc(ar->ptr, size)`. -/
def arena_resize (ar : arena) (size : Nat) (r : Nat) (m : Mem) : arena × Mem :=
  if r = 0 then (ar, m)
  else if r ≠ ar.ptr then
    ({ ar with ptr := r, capacity := size },
     { slots := rebase ((r + (SIZE_RANGE - ar.ptr)) % SIZE_RANGE)
                  (ar.client_ptrs.take ar.client_ptr_idx) m.slots,
       bytes := realloc_bytes m.bytes ar.ptr r (min ar.capacity size) })
  else ({ ar with ptr := r, capacity := size }, m)

/-- Lines 119-121 of `a_malloc`: advance the cursor and return
`ar->ptr + (ar->current - requested)`. -/
def a_malloc_bump (requested : Nat) (am : arena × Mem) : Nat × arena × Mem :=
  let cur := (am.1.current + requested) % SIZE_RANGE
  ((am.1.ptr + (cur + (SIZE_RANGE - requested)) % SIZE_RANGE) % SIZE_RANGE,
   { am.1 with current := cur }, am.2)

/-- The function `a_malloc` (lines 109-122).  `r` is the value that `realloc`
returns if `arena_resize` is called.  The first component of the result is the
returned pointer (`0` for `NULL`). -/
def a_malloc (requested : Nat) (ar : arena) (r : Nat) (m : Mem) : Nat × arena × Mem :=
  if (ar.current + requested) % SIZE_RANGE > ar.capacity then
    if ar.auto_resize ≠ 0 then
      a_malloc_bump requested
        (arena_resize ar
          (shl_one ((LOG2 ((ar.current + requested) % SIZE_RANGE) + 1) % SIZE_RANGE)) r m)
    else (0, ar, m)
  else a_malloc_bump requested (ar, m)

/-- The function `a_calloc` (lines 124-128).  The first two components are
the pointer and the arena that the call of `a_malloc` on line 125 produces;
`a_calloc` returns that pointer.  The third component is the memory after
line 126: when the pointer is `NULL` nothing is written; otherwise
`memset(result, 0, requested)` writes the bytes `[result, result + requested)`,
which is defined only while that range lies inside the buffer
`[ptr, ptr + capacity)` of the arena.  A `memset` that leaves the buffer is
undefined behaviour (it overruns into other heap objects, or cannot complete at
all): the memory is then `none` and the call has no defined outcome.  The
caller's pointer variables (`slots`) are taken to lie outside the zeroed range. -/
def a_calloc (requested : Nat) (ar : arena) (r : Nat) (m : Mem) : Nat × arena × Option Mem :=
  let res := a_malloc requested ar r m
  (res.1, res.2.1,
    if res.1 ≠ 0 then
      if res.2.1.ptr ≤ res.1 ∧ res.1 + requested ≤ res.2.1.ptr + res.2.1.capacity then
        some { res.2.2 with
               bytes := fun a => if res.1 ≤ a ∧ a < res.1 + requested then 0
                                 else res.2.2.bytes a }
      else none
    else some res.2.2)

/-- Line 167 of `arena_register_ptr`: `ar->client_ptrs[ar->client_ptr_idx++] = ptr`.
A write outside the array (in particular through a `NULL` array pointer) is
undefined behaviour: `none`. -/
def register_store (ar : arena) (ptr : Nat) : Option (Nat × arena) :=
  if ar.client_ptr_idx < ar.client_ptrs.length then
    some (ptr, { ar with client_ptrs := ar.client_ptrs.set ar.client_ptr_idx ptr,
                         client_ptr_idx := (ar.client_ptr_idx + 1) % SIZE_RANGE })
  else none

/-- The function `arena_register_ptr` (lines 155-169).  `ok` tells whether the
`realloc` of the slot array succeeds, if it is called.  The grown array keeps
the old entries; its new entries are uninitialised (here `0`).  The result is
`none` on undefined behaviour, otherwise the returned pointer (`0` for `NULL`)
and the arena. -/
def arena_register_ptr (ar : arena) (ptr : Nat) (ok : Bool) : Option (Nat × arena) :=
  if ar.client_ptr_idx = ar.client_ptr_array_size then
    if ok then
      register_store
        { ar with
          client_ptrs :=
            (ar.client_ptrs ++ List.replicate ar.client_ptr_array_size 0).take
              ((8 * ar.client_ptr_array_size * 2) % SIZE_RANGE / 8),
          client_ptr_array_size := (ar.client_ptr_array_size * 2) % SIZE_RANGE } ptr
    else some (0, ar)
  else register_store ar ptr

/-- Diagnostics that the registry functions print with `puts` and `printf`. -/
inductive Msg
  | atexit_failed
  | limit_reached
  | metadata_failed
  | buffer_failed
  | free_not_found
  | reset_not_found
  deriving DecidableEq, Repr

/-- The process state: the globals `arenas`, `num_arenas`, `arena_name_idx`
(lines 25-27), the static `registered_cleanup` of `new_arena`, the arena
structs that are currently allocated (`heap h` is the struct at address `h`),
and the rest of the memory. -/
structure State where
  arenas : List Nat
  num_arenas : Nat
  arena_name_idx : Nat
  registered_cleanup : Nat
  heap : Nat → Option arena
  mem : Mem

/-- The state at program start: all globals are zero, no arena is allocated. -/
def State.init : State :=
  { arenas := List.replicate MAX_ARENAS 0, num_arenas := 0, arena_name_idx := 0,
    registered_cleanup := 0, heap := fun _ => none,
    mem := { slots := fun _ => 0, bytes := fun _ => 0 } }

/-- One iteration of the loop of `a_cleanup` (lines 31-36). -/
def a_cleanup_step (s : State) (i : Nat) : State :=
  if s.arenas.getD i 0 ≠ 0 then
    { s with heap := fun a => if a = s.arenas.getD i 0 then none else s.heap a,
             arenas := s.arenas.set i 0 }
  else s

/-- The function `a_cleanup` (lines 29-38). -/
def a_cleanup (s : State) : State :=
  (List.range MAX_ARENAS).foldl a_cleanup_step s

/-- Lines 42-49 of `new_arena`: register `a_cleanup` with `atexit` once.
`atexit_r` is the value returned by `atexit`. -/
def register_cleanup (s : State) (atexit_r : Nat) : List Msg × State :=
  if s.registered_cleanup = 0 then
    if atexit_r ≠ 0 then ([Msg.atexit_failed], s)
    else ([], { s with registered_cleanup := 1 })
  else ([], s)

/-- The function `new_arena` (lines 40-77).  `atexit_r` is the result of
`atexit`; `m_meta`, `m_buf`, `m_cp` are the results of the three `malloc`
calls (struct, buffer, slot array), each used only if its call is reached.
The result is `none` if the table is written outside its bounds, otherwise
the returned pointer (`0` for `NULL`), the diagnostics and the new state. -/
def new_arena (s : State) (capacity : Nat) (atexit_r m_meta m_buf m_cp : Nat) :
    Option (Nat × List Msg × State) :=
  let s0 := (register_cleanup s atexit_r).2
  let out := (register_cleanup s atexit_r).1
  if s0.num_arenas = MAX_ARENAS then some (0, out ++ [Msg.limit_reached], s0)
  else if MAX_ARENAS < s0.num_arenas then none
  else if m_meta = 0 then
    some (0, out ++ [Msg.metadata_failed],
          { s0 with arenas := s0.arenas.set s0.num_arenas 0 })
  else if m_buf = 0 then
    some (0, out ++ [Msg.buffer_failed],
          { s0 with arenas := s0.arenas.set s0.num_arenas 0,
                    heap := fun a => if a = m_meta then none else s0.heap a })
  else
    some (m_meta, out,
          { s0 with
            arenas := s0.arenas.set s0.num_arenas m_meta,
            heap := fun a =>
              if a = m_meta then
                some { ptr := m_buf, name := s0.arena_name_idx, capacity := capacity,
                       current := 0,
                       client_ptrs := if m_cp = 0 then [] else List.replicate 4 0,
                       client_ptr_idx := 0, client_ptr_array_size := 4, auto_resize := 1 }
              else s0.heap a,
            num_arenas := (s0.num_arenas + 1) % SIZE_RANGE,
            arena_name_idx := (s0.arena_name_idx + 1) % SIZE_RANGE })

/-- The search loops of lines 132 and 146, `while (idx < bound && arenas[idx] != ar) idx++`:
the first argument is `bound - idx`, the result is the final `idx`. -/
def find_arena (tbl : List Nat) (ar : Nat) : Nat → Nat → Nat
  | 0, idx => idx
  | n + 1, idx => if tbl.getD idx 0 ≠ ar then find_arena tbl ar n (idx + 1) else idx

/-- The function `arena_free` (lines 130-142).  The result is `none` on
undefined behaviour: `ar` is dereferenced without being an allocated struct,
or `arenas[num_arenas]` lies outside the table. -/
def arena_free (s : State) (ar : Nat) : Option (List Msg × State) :=
  if find_arena s.arenas ar s.num_arenas 0 = s.num_arenas then
    some ([Msg.free_not_found], s)
  else
    match s.heap ar with
    | none => none
    | some _ =>
      if s.num_arenas < MAX_ARENAS then
        some ([],
          { s with
            heap := fun a => if a = ar then none else s.heap a,
            arenas :=
              (s.arenas.set (find_arena s.arenas ar s.num_arenas 0)
                (s.arenas.getD s.num_arenas 0)).set s.num_arenas 0,
            num_arenas := s.num_arenas - 1 })
      else none

/-- The function `arena_reset` (lines 144-153).  The result is `none` if `ar`
is dereferenced without being an allocated struct. -/
def arena_reset (s : State) (ar : Nat) : Option (List Msg × State) :=
  if find_arena s.arenas ar MAX_ARENAS 0 = MAX_ARENAS then
    some ([Msg.reset_not_found], s)
  else
    match s.heap ar with
    | none => none
    | some a =>
      some ([], { s with heap := fun x => if x = ar then some { a with current := 0 } else s.heap x })

/-- A call `a_malloc(requested, h)` in a process state, `h` being the address
of an arena struct: `none` if no struct is allocated at `h`. -/
def a_malloc_at (s : State) (requested h r : Nat) : Option (Nat × State) :=
  match s.heap h with
  | none => none
  | some ar =>
    some ((a_malloc requested ar r s.mem).1,
          { s with heap := fun x => if x = h then some (a_malloc requested ar r s.mem).2.1
                                    else s.heap x,
                   mem := (a_malloc requested ar r s.mem).2.2 })

/-- One call `new_arena(capacity)` together with the results of the library
calls it makes (`atexit` and the three `malloc` calls). -/
structure NewCall where
  capacity : Nat
  atexit_r : Nat
  m_meta : Nat
  m_buf : Nat
  m_cp : Nat
  deriving DecidableEq, Repr

/-- A sequence of `new_arena` calls; the result lists the returned pointers. -/
def new_arena_seq (s : State) : List NewCall → Option (List Nat × State)
  | [] => some ([], s)
  | c :: rest =>
    match new_arena s c.capacity c.atexit_r c.m_meta c.m_buf c.m_cp with
    | none => none
    | some r =>
      match new_arena_seq r.2.2 rest with
      | none => none
      | some q => some (r.1 :: q.1, q.2)

/-- The indices at which the search loop of line 132 reads the table: the test
`idx < bound && arenas[idx] != ar` reads `arenas[idx]` only when `idx < bound`.
The first argument is `bound - idx`. -/
def find_arena_reads (tbl : List Nat) (ar : Nat) : Nat → Nat → List Nat
  | 0, _ => []
  | n + 1, idx =>
    idx :: (if tbl.getD idx 0 ≠ ar then find_arena_reads tbl ar n (idx + 1) else [])

/-- The table indices that `arena_free` uses, in program order: the reads of
the search loop (line 132) and, when the arena is found, the read of
`arenas[idx]` (line 139), the read of `arenas[num_arenas]` and the write of
`arenas[idx]` (line 140), and the write of `arenas[num_arenas]` (line 141). -/
def arena_free_accesses (s : State) (ar : Nat) : List Nat :=
  find_arena_reads s.arenas ar s.num_arenas 0 ++
    (if find_arena s.arenas ar s.num_arenas 0 = s.num_arenas then []
     else [find_arena s.arenas ar s.num_arenas 0, s.num_arenas,
           find_arena s.arenas ar s.num_arenas 0, s.num_arenas])

/-- Number of table slots that hold an arena (are not `NULL`). -/
def occupied (s : State) : Nat := (s.arenas.filter fun p => p ≠ 0).length

/-! ### Concrete arenas and runs used as test inputs -/

/-- The arena that `new_arena(16)` creates when `malloc` returns the buffer
address 5000. -/
def ex_arena : arena :=
  { ptr := 5000, name := 0, capacity := 16, current := 0, client_ptrs := [0, 0, 0, 0],
    client_ptr_idx := 0, client_ptr_array_size := 4, auto_resize := 1 }

/-- A memory in which the caller's pointer variable at address 40 holds the
address 5005 (inside the buffer of `ex_arena`). -/
def ex_mem : Mem := { slots := fun a => if a = 40 then 5005 else 0, bytes := fun _ => 0 }

/-- Run: `A = new_arena(16)` (struct at 1000), `B = new_arena(16)` (struct at 2000). -/
def run_two : Option State :=
  (new_arena State.init 16 0 1000 5000 9000).bind fun a =>
    (new_arena a.2.2 16 0 2000 6000 9100).map fun b => b.2.2

/-- Run: `run_two`, then `arena_free(A)`. -/
def run_two_free_first : Option State :=
  run_two.bind fun s => (arena_free s 1000).map fun c => c.2

/-- Run: `run_two`, `a_malloc(10, B)`, `arena_free(A)`, `C = new_arena(16)`
(struct at 3000). -/
def run_overwrite : Option State :=
  run_two.bind fun s => (a_malloc_at s 10 2000 0).bind fun m =>
    (arena_free m.2 1000).bind fun c =>
      (new_arena c.2 16 0 3000 7000 9200).map fun d => d.2.2

/-- The state after `A = new_arena(16)` at program start (struct at 1000,
buffer at 5000). -/
def ex_state : State :=
  { arenas := 1000 :: List.replicate 99 0, num_arenas := 1, arena_name_idx := 1,
    registered_cleanup := 1, heap := fun a => if a = 1000 then some ex_arena else none,
    mem := { slots := fun _ => 0, bytes := fun _ => 0 } }

/-- The calls `new_arena(16)` number `0 .. n-1` of a run in which every library
call succeeds: call `i` gets its struct at `1000 + i`. -/
def ex_calls (n : Nat) : List NewCall :=
  (List.range n).map fun i =>
    { capacity := 16, atexit_r := 0, m_meta := 1000 + i, m_buf := 100000 + 16 * i,
      m_cp := 200000 + 32 * i }

/-- Run: `MAX_ARENAS` successful calls of `new_arena(16)` from program start. -/
def run_full : Option State :=
  (new_arena_seq State.init (ex_calls MAX_ARENAS)).map fun r => r.2

/-- The invariant `0 ≤ offset ≤ capacity` of an arena. -/
def within_capacity (ar : arena) : Prop := ar.current ≤ ar.capacity

instance (ar : arena) : Decidable (within_capacity ar) := by
  unfold within_capacity
  exact inferInstance

/-! ## Theorems -/

/-! ### Supporting facts about the embedded functions -/

/-- The value of `clzl_from` on a number of bit length `b + 1`. -/
theorem clzl_from_eq (k x b : Nat) (hlo : 2 ^ b ≤ x) (hhi : x < 2 ^ (b + 1)) (hb : b < k) :
    clzl_from k x = k - (b + 1) := by
  induction k with
  | zero => omega
  | succ j ih =>
    by_cases hbj : b < j
    · have hle : 2 ^ (b + 1) ≤ 2 ^ j := Nat.pow_le_pow_right (by decide) hbj
      rw [clzl_from, if_pos (by omega), ih hbj]
      omega
    · have hbj2 : b = j := by omega
      subst hbj2
      rw [clzl_from, if_neg (by omega)]
      omega

/-- For `needed` of bit length at most 30 (that is `needed < 2 ^ 30`), the new
capacity computed on line 112 is `2 ^ (floor(log2(needed)) + 1)`, the smallest
power of two strictly greater than `needed`. -/
theorem new_capacity_small (x b : Nat) (hlo : 2 ^ b ≤ x) (hhi : x < 2 ^ (b + 1)) (hb : b < 30) :
    shl_one ((LOG2 x + 1) % SIZE_RANGE) = 2 ^ (b + 1) := by
  have hclz : clzl x = 63 - b := by
    rw [clzl, clzl_from_eq 64 x b hlo hhi (by omega)]
    omega
  have hcount : ((LOG2 x + 1) % SIZE_RANGE) % 32 = b + 1 := by
    simp only [LOG2, hclz, SIZE_RANGE]
    omega
  have hsmall : 2 ^ (b + 1) < 2 ^ 31 := Nat.pow_lt_pow_right (by decide) (by omega)
  rw [shl_one, hcount, if_pos hsmall]

/-- The example of the growth rule: capacity 16, `a_malloc(10)` twice; the
second call grows the arena to capacity 32. -/
theorem a_malloc_growth_example :
    (a_malloc 10 (a_malloc 10 ex_arena 0 ex_mem).2.1 7000 ex_mem).2.1.capacity = 32 ∧
    (a_malloc 10 (a_malloc 10 ex_arena 0 ex_mem).2.1 7000 ex_mem).2.1.current = 20 := by
  decide

/-- A non-`NULL` result of `a_malloc` is the address `base + old_offset` for the
base that the arena has after the call, and the cursor is advanced by the
request (modulo `2 ^ 64`). -/
theorem a_malloc_pointer (n r : Nat) (ar : arena) (m : Mem) (hn : n < SIZE_RANGE)
    (hcur : ar.current < SIZE_RANGE) (hp : (a_malloc n ar r m).1 ≠ 0) :
    (a_malloc n ar r m).1 = ((a_malloc n ar r m).2.1.ptr + ar.current) % SIZE_RANGE ∧
    (a_malloc n ar r m).2.1.current = (ar.current + n) % SIZE_RANGE := by
  have hoff : ((ar.current + n) % SIZE_RANGE + (SIZE_RANGE - n)) % SIZE_RANGE = ar.current := by
    simp only [SIZE_RANGE] at *
    omega
  have hres : ∀ size, (arena_resize ar size r m).1.current = ar.current := by
    intro size
    unfold arena_resize
    split_ifs <;> rfl
  unfold a_malloc at hp ⊢
  split_ifs at hp ⊢ with h1 h2
  · simp only [a_malloc_bump, hres, hoff, and_self]
  · exact absurd rfl hp
  · simp only [a_malloc_bump, hoff, and_self]

/-- With `auto_resize` off, a request that does not fit and whose sum with the
offset does not overflow `size_t` is rejected: `a_malloc` returns `NULL` and
changes nothing. -/
theorem a_malloc_fixed_rejects (n r : Nat) (ar : arena) (m : Mem) (hauto : ar.auto_resize = 0)
    (hover : ar.capacity < ar.current + n) (hsum : ar.current + n < SIZE_RANGE) :
    a_malloc n ar r m = (0, ar, m) := by
  unfold a_malloc
  rw [Nat.mod_eq_of_lt hsum, if_pos hover, if_neg (by simp [hauto])]

/-- Two successive allocations that return a pointer, the first of which does
not overflow the cursor: the first is at offset `old_offset` and the second at
offset `old_offset + n1`, the end of the first range, whether or not either
call grows the arena. -/
theorem a_malloc_successive (n1 n2 r1 r2 : Nat) (ar : arena) (m : Mem)
    (hsum : ar.current + n1 < SIZE_RANGE) (hn2 : n2 < SIZE_RANGE)
    (hp1 : (a_malloc n1 ar r1 m).1 ≠ 0)
    (hp2 : (a_malloc n2 (a_malloc n1 ar r1 m).2.1 r2 (a_malloc n1 ar r1 m).2.2).1 ≠ 0) :
    (a_malloc n1 ar r1 m).1 = ((a_malloc n1 ar r1 m).2.1.ptr + ar.current) % SIZE_RANGE ∧
    (a_malloc n2 (a_malloc n1 ar r1 m).2.1 r2 (a_malloc n1 ar r1 m).2.2).1 =
      ((a_malloc n2 (a_malloc n1 ar r1 m).2.1 r2 (a_malloc n1 ar r1 m).2.2).2.1.ptr
        + (ar.current + n1)) % SIZE_RANGE := by
  obtain ⟨hfirst, hcur1⟩ := a_malloc_pointer n1 r1 ar m (by omega) (by omega) hp1
  rw [Nat.mod_eq_of_lt hsum] at hcur1
  obtain ⟨hsecond, _⟩ :=
    a_malloc_pointer n2 r2 (a_malloc n1 ar r1 m).2.1 (a_malloc n1 ar r1 m).2.2 hn2
      (by rw [hcur1]; exact hsum) hp2
  rw [hcur1] at hsecond
  exact ⟨hfirst, hsecond⟩

/-- The rebasing loop adds `delta` to the variable at `p` once for every
occurrence of `p` in the slot list (modulo `2 ^ 64`). -/
theorem rebase_apply (delta : Nat) (l : List Nat) (slots : Nat → Nat) (p : Nat)
    (hv : slots p < SIZE_RANGE) :
    rebase delta l slots p = (slots p + l.count p * delta) % SIZE_RANGE := by
  induction l generalizing slots with
  | nil => simp [rebase, Nat.mod_eq_of_lt hv]
  | cons q ps ih =>
    have hpos : 0 < SIZE_RANGE := by decide
    by_cases hpq : p = q
    · subst hpq
      rw [rebase, ih _ (by simp only [if_true]; exact Nat.mod_lt _ hpos)]
      simp only [if_true, List.count_cons_self, Nat.add_mul, Nat.one_mul]
      generalize List.count p ps * delta = x
      simp only [SIZE_RANGE]
      omega
    · rw [rebase, ih _ (by simp only [if_neg hpq]; exact hv)]
      simp only [if_neg hpq, List.count_cons_of_ne hpq]

/-- Writing entry `i` and reading the first `i + 1` entries. -/
theorem take_succ_set (l : List Nat) (i p : Nat) (h : i < l.length) :
    (l.set i p).take (i + 1) = l.take i ++ [p] := by
  induction l generalizing i with
  | nil => simp at h
  | cons a t ih =>
    cases i with
    | zero => simp
    | succ j =>
      simp only [List.length_cons, Nat.add_lt_add_iff_right] at h
      simp only [List.set_cons_succ, List.take_succ_cons, List.cons_append, ih j h]

/-- A successful `arena_register_ptr` returns the given address and appends it
to the list of registered slots. -/
theorem arena_register_ptr_appends (ar ar1 : arena) (p q : Nat) (ok : Bool)
    (hwf : ar.client_ptr_idx ≤ ar.client_ptrs.length)
    (hidx : ar.client_ptr_idx + 1 < SIZE_RANGE) (hq : q ≠ 0)
    (h : arena_register_ptr ar p ok = some (q, ar1)) :
    q = p ∧
    ar1.client_ptrs.take ar1.client_ptr_idx = ar.client_ptrs.take ar.client_ptr_idx ++ [p] ∧
    ar1.client_ptr_idx ≤ ar1.client_ptrs.length := by
  have hstore : ∀ a : arena, register_store a p = some (q, ar1) →
      a.client_ptr_idx = ar.client_ptr_idx →
      q = p ∧ ar1.client_ptrs.take ar1.client_ptr_idx = a.client_ptrs.take a.client_ptr_idx ++ [p] ∧
      ar1.client_ptr_idx ≤ ar1.client_ptrs.length := by
    intro a hs ha
    unfold register_store at hs
    split_ifs at hs with hlt
    simp only [Option.some.injEq, Prod.mk.injEq] at hs
    obtain ⟨hqp, har⟩ := hs
    subst har
    have hmod : (a.client_ptr_idx + 1) % SIZE_RANGE = a.client_ptr_idx + 1 :=
      Nat.mod_eq_of_lt (by omega)
    simp only [hmod, List.length_set]
    exact ⟨hqp.symm, take_succ_set _ _ _ hlt, hlt⟩
  unfold arena_register_ptr at h
  split_ifs at h with hfull hok
  · have hlen : ar.client_ptr_idx <
        ((ar.client_ptrs ++ List.replicate ar.client_ptr_array_size 0).take
          ((8 * ar.client_ptr_array_size * 2) % SIZE_RANGE / 8)).length := by
      unfold register_store at h
      split_ifs at h with hlt
      exact hlt
    obtain ⟨h1, h2, h3⟩ := hstore _ h rfl
    refine ⟨h1, ?_, h3⟩
    rw [h2]
    simp only [List.length_take] at hlen
    simp only [List.take_take]
    rw [Nat.min_eq_left (by omega), List.take_append_of_le_length hwf]
  · simp only [Option.some.injEq, Prod.mk.injEq] at h
    exact absurd h.1.symm hq
  · exact hstore ar h rfl

/-- Two successful registrations of an address `p` that was not registered
before leave `p` twice in the list of registered slots. -/
theorem registered_twice_count (ar ar1 ar2 : arena) (p : Nat) (ok1 ok2 : Bool)
    (hwf : ar.client_ptr_idx ≤ ar.client_ptrs.length)
    (hidx : ar.client_ptr_idx + 2 < SIZE_RANGE) (hp : p ≠ 0)
    (hnew : (ar.client_ptrs.take ar.client_ptr_idx).count p = 0)
    (h1 : arena_register_ptr ar p ok1 = some (p, ar1))
    (h2 : arena_register_ptr ar1 p ok2 = some (p, ar2)) :
    (ar2.client_ptrs.take ar2.client_ptr_idx).count p = 2 := by
  obtain ⟨_, hs1, hwf1⟩ := arena_register_ptr_appends ar ar1 p p ok1 hwf (by omega) hp h1
  have hidx1 : ar1.client_ptr_idx = ar.client_ptr_idx + 1 := by
    have hlen := congrArg List.length hs1
    simp only [List.length_take, List.length_append, List.length_singleton] at hlen
    omega
  obtain ⟨_, hs2, _⟩ := arena_register_ptr_appends ar1 ar2 p p ok2 hwf1 (by omega) hp h2
  rw [hs2, hs1]
  simp [hnew]

/-- The state `ex_state` is the one that `new_arena` produces at program start. -/
theorem new_arena_init : new_arena State.init 16 0 1000 5000 9000 = some (1000, [], ex_state) := by
  rfl

/-- Reading a table entry after a write. -/
theorem getD_set (l : List Nat) (i j v : Nat) :
    (l.set i v).getD j 0 = if j = i ∧ i < l.length then v else l.getD j 0 := by
  induction l generalizing i j with
  | nil => simp
  | cons a t ih =>
    cases i with
    | zero =>
      cases j with
      | zero => simp
      | succ j => simp
    | succ i =>
      cases j with
      | zero => simp
      | succ j =>
        simp only [List.set_cons_succ, List.getD_cons_succ, ih, List.length_cons,
          Nat.add_lt_add_iff_right, Nat.add_right_cancel_iff]

/-- Writing `NULL` into a table slot that is `NULL` (or outside the list)
changes nothing. -/
theorem set_null_of_null (l : List Nat) (i : Nat) (h : l.getD i 0 = 0) : l.set i 0 = l := by
  induction l generalizing i with
  | nil => rfl
  | cons a t ih =>
    cases i with
    | zero =>
      simp only [List.getD_cons_zero] at h
      simp only [List.set_cons_zero, h]
    | succ i =>
      simp only [List.getD_cons_succ] at h
      simp only [List.set_cons_succ, ih i h]

/-- One iteration of `a_cleanup` empties slot `i` and leaves the other slots. -/
theorem a_cleanup_step_arenas (s : State) (i j : Nat) :
    (a_cleanup_step s i).arenas.getD j 0 = if j = i then 0 else s.arenas.getD j 0 := by
  unfold a_cleanup_step
  by_cases hnull : s.arenas.getD i 0 = 0
  · simp only [hnull, ne_eq, not_true_eq_false, if_false]
    by_cases hji : j = i
    · simp only [hji, if_true, hnull]
    · simp only [hji, if_false]
  · simp only [hnull, ne_eq, not_false_eq_true, if_true, getD_set]
    by_cases hji : j = i
    · subst hji
      by_cases hlt : j < s.arenas.length
      · simp only [hlt, and_self, if_true]
      · exfalso
        apply hnull
        simp only [List.getD_eq_getElem?_getD, List.getElem?_eq_none (Nat.le_of_not_lt hlt),
          Option.getD_none]
    · simp only [hji, false_and, if_false]

/-- The loop of `a_cleanup` over the indices `l` empties exactly these slots. -/
theorem a_cleanup_fold_arenas (l : List Nat) (s : State) (j : Nat) :
    (l.foldl a_cleanup_step s).arenas.getD j 0 = if j ∈ l then 0 else s.arenas.getD j 0 := by
  induction l generalizing s with
  | nil => simp
  | cons i rest ih =>
    rw [List.foldl_cons, ih, a_cleanup_step_arenas]
    by_cases hrest : j ∈ rest
    · simp only [hrest, if_true, List.mem_cons, or_true]
    · by_cases hji : j = i
      · subst hji
        simp only [hrest, if_false, if_true, List.mem_cons, true_or]
      · simp only [hrest, hji, if_false, List.mem_cons, or_self]

/-- The loop of `a_cleanup` does nothing on slots that are already empty. -/
theorem a_cleanup_fold_null (l : List Nat) (s : State) (h : ∀ i ∈ l, s.arenas.getD i 0 = 0) :
    l.foldl a_cleanup_step s = s := by
  induction l with
  | nil => rfl
  | cons i rest ih =>
    have hstep : a_cleanup_step s i = s := by
      unfold a_cleanup_step
      rw [if_neg (fun hne => hne (h i (List.mem_cons_self i rest)))]
    rw [List.foldl_cons, hstep]
    exact ih fun k hk => h k (List.mem_cons_of_mem i hk)

/-- `a_cleanup` does not change the counters `num_arenas` and `arena_name_idx`. -/
theorem a_cleanup_counters (s : State) :
    (a_cleanup s).num_arenas = s.num_arenas ∧ (a_cleanup s).arena_name_idx = s.arena_name_idx := by
  have hfold : ∀ (l : List Nat) (t : State),
      (l.foldl a_cleanup_step t).num_arenas = t.num_arenas ∧
      (l.foldl a_cleanup_step t).arena_name_idx = t.arena_name_idx := by
    intro l
    induction l with
    | nil => intro t; exact ⟨rfl, rfl⟩
    | cons i rest ih =>
      intro t
      rw [List.foldl_cons]
      obtain ⟨h1, h2⟩ := ih (a_cleanup_step t i)
      rw [h1, h2]
      unfold a_cleanup_step
      split_ifs <;> exact ⟨rfl, rfl⟩
  exact hfold _ s

/-- Registering the exit handler changes neither the table, the counters, the
allocated structs nor the memory. -/
theorem register_cleanup_fields (s : State) (atexit_r : Nat) :
    (register_cleanup s atexit_r).2.arenas = s.arenas ∧
    (register_cleanup s atexit_r).2.num_arenas = s.num_arenas ∧
    (register_cleanup s atexit_r).2.arena_name_idx = s.arena_name_idx ∧
    (register_cleanup s atexit_r).2.heap = s.heap ∧
    (register_cleanup s atexit_r).2.mem = s.mem := by
  unfold register_cleanup
  split_ifs <;> exact ⟨rfl, rfl, rfl, rfl, rfl⟩

/-- When the table is not full and the struct and the buffer are allocated,
`new_arena` returns the struct address, stores it in `arenas[num_arenas]`,
increments both counters and initialises the struct. -/
theorem new_arena_ok (s : State) (capacity atexit_r m_meta m_buf m_cp : Nat)
    (hroom : s.num_arenas < MAX_ARENAS) (hmeta : m_meta ≠ 0) (hbuf : m_buf ≠ 0) :
    ∃ out s1, new_arena s capacity atexit_r m_meta m_buf m_cp = some (m_meta, out, s1) ∧
      s1.arenas = s.arenas.set s.num_arenas m_meta ∧
      s1.num_arenas = s.num_arenas + 1 ∧
      s1.arena_name_idx = (s.arena_name_idx + 1) % SIZE_RANGE ∧
      s1.mem = s.mem ∧
      s1.heap = fun a =>
        if a = m_meta then
          some { ptr := m_buf, name := s.arena_name_idx, capacity := capacity, current := 0,
                 client_ptrs := if m_cp = 0 then [] else List.replicate 4 0,
                 client_ptr_idx := 0, client_ptr_array_size := 4, auto_resize := 1 }
        else s.heap a := by
  obtain ⟨h1, h2, h3, h4, h5⟩ := register_cleanup_fields s atexit_r
  have hne : ¬ s.num_arenas = MAX_ARENAS := by omega
  have hgt : ¬ MAX_ARENAS < s.num_arenas := by omega
  have hmod : (s.num_arenas + 1) % SIZE_RANGE = s.num_arenas + 1 := by
    apply Nat.mod_eq_of_lt
    simp only [MAX_ARENAS, SIZE_RANGE] at *
    omega
  have hcall : new_arena s capacity atexit_r m_meta m_buf m_cp =
      some (m_meta, (register_cleanup s atexit_r).1,
        { (register_cleanup s atexit_r).2 with
          arenas := s.arenas.set s.num_arenas m_meta
          heap := fun a =>
            (if a = m_meta then
              some { ptr := m_buf, name := s.arena_name_idx, capacity := capacity, current := 0,
                     client_ptrs := if m_cp = 0 then [] else List.replicate 4 0,
                     client_ptr_idx := 0, client_ptr_array_size := 4, auto_resize := 1 }
            else s.heap a)
          num_arenas := s.num_arenas + 1
          arena_name_idx := (s.arena_name_idx + 1) % SIZE_RANGE }) := by
    simp only [new_arena, h1, h2, h3, h4, hmod, if_neg hne, if_neg hgt, if_neg hmeta, if_neg hbuf]
  exact ⟨_, _, hcall, rfl, rfl, rfl, h5, rfl⟩

/-- When the table is full, `new_arena` returns `NULL` with the diagnostic
"Arena limit reached!" as its last output and changes neither the table, the
counters, the allocated structs nor the memory. -/
theorem new_arena_full (s : State) (capacity atexit_r m_meta m_buf m_cp : Nat)
    (hfull : s.num_arenas = MAX_ARENAS) :
    ∃ out s1, new_arena s capacity atexit_r m_meta m_buf m_cp = some (0, out, s1) ∧
      out.getLast? = some Msg.limit_reached ∧
      s1.arenas = s.arenas ∧ s1.num_arenas = s.num_arenas ∧
      s1.arena_name_idx = s.arena_name_idx ∧ s1.heap = s.heap ∧ s1.mem = s.mem := by
  obtain ⟨h1, h2, h3, h4, h5⟩ := register_cleanup_fields s atexit_r
  have hcall : new_arena s capacity atexit_r m_meta m_buf m_cp =
      some (0, (register_cleanup s atexit_r).1 ++ [Msg.limit_reached],
        (register_cleanup s atexit_r).2) := by
    simp only [new_arena, h2, hfull, if_true]
  exact ⟨_, _, hcall, List.getLast?_concat _, h1, h2, h3, h4, h5⟩

/-- A non-`NULL` result of `new_arena` is the struct address and is returned
only if the table was not full and the struct and the buffer were allocated. -/
theorem new_arena_nonnull (s s1 : State) (capacity atexit_r m_meta m_buf m_cp p : Nat)
    (out : List Msg) (hp : p ≠ 0)
    (h : new_arena s capacity atexit_r m_meta m_buf m_cp = some (p, out, s1)) :
    p = m_meta ∧ s.num_arenas < MAX_ARENAS ∧ m_meta ≠ 0 ∧ m_buf ≠ 0 := by
  obtain ⟨_, h2, _, _, _⟩ := register_cleanup_fields s atexit_r
  simp only [new_arena, h2] at h
  split_ifs at h with hfull hgt hmeta hbuf
  all_goals
    first
    | exact Option.noConfusion h
    | (simp only [Option.some.injEq, Prod.mk.injEq] at h
       first
       | exact absurd h.1.symm hp
       | exact ⟨h.1.symm, by omega, hmeta, hbuf⟩)

/-- A sequence of `new_arena` calls that fits into the table and whose struct
and buffer allocations succeed: every call returns its struct address, and the
addresses are stored in the table slots `num_arenas, num_arenas + 1, ...`. -/
theorem new_arena_seq_ok (calls : List NewCall) (s : State)
    (hlen : s.arenas.length = MAX_ARENAS)
    (hroom : s.num_arenas + calls.length ≤ MAX_ARENAS)
    (hok : ∀ c ∈ calls, c.m_meta ≠ 0 ∧ c.m_buf ≠ 0) :
    ∃ s1, new_arena_seq s calls = some (calls.map (fun c => c.m_meta), s1) ∧
      s1.num_arenas = s.num_arenas + calls.length ∧
      s1.arenas = s.arenas.take s.num_arenas ++ calls.map (fun c => c.m_meta) ++
        s.arenas.drop (s.num_arenas + calls.length) := by
  induction calls generalizing s with
  | nil =>
    refine ⟨s, rfl, rfl, ?_⟩
    simp only [List.map_nil, List.append_nil, List.length_nil, Nat.add_zero,
      List.take_append_drop]
  | cons c rest ih =>
    simp only [List.length_cons] at hroom
    obtain ⟨hm, hb⟩ := hok c (List.mem_cons_self c rest)
    obtain ⟨out, s1, hcall, htbl, hnum, _, _, _⟩ :=
      new_arena_ok s c.capacity c.atexit_r c.m_meta c.m_buf c.m_cp (by omega) hm hb
    obtain ⟨s2, hseq, hnum2, htbl2⟩ := ih s1 (by rw [htbl, List.length_set]; exact hlen)
      (by omega) (fun d hd => hok d (List.mem_cons_of_mem c hd))
    refine ⟨s2, ?_, ?_, ?_⟩
    · simp only [new_arena_seq, hcall, hseq, List.map_cons]
    · simp only [hnum2, hnum, List.length_cons]
      omega
    · rw [htbl2, hnum, htbl, take_succ_set _ _ _ (by omega),
        List.drop_set_of_lt _ _ (by omega)]
      have harith : s.num_arenas + 1 + rest.length = s.num_arenas + (rest.length + 1) := by omega
      simp only [List.map_cons, List.length_cons, List.append_assoc, List.singleton_append,
        harith]

/-- The search loop never runs past its bound. -/
theorem find_arena_le (tbl : List Nat) (ar n idx : Nat) : find_arena tbl ar n idx ≤ idx + n := by
  induction n generalizing idx with
  | zero => simp only [find_arena, Nat.add_zero, Nat.le_refl]
  | succ k ih =>
    by_cases hhit : tbl.getD idx 0 = ar
    · simp only [find_arena, hhit, ne_eq, not_true_eq_false, if_false]
      omega
    · simp only [find_arena, hhit, ne_eq, not_false_eq_true, if_true]
      have := ih (idx + 1)
      omega

/-- When no slot in `[idx, idx + n)` holds `ar`, the search loop ends at the
bound `idx + n`. -/
theorem find_arena_miss (tbl : List Nat) (ar n idx : Nat)
    (h : ∀ i, i < n → tbl.getD (idx + i) 0 ≠ ar) : find_arena tbl ar n idx = idx + n := by
  induction n generalizing idx with
  | zero => simp only [find_arena, Nat.add_zero]
  | succ k ih =>
    have h0 : tbl.getD idx 0 ≠ ar := by
      have := h 0 (by omega)
      simpa only [Nat.add_zero] using this
    simp only [find_arena, h0, ne_eq, not_false_eq_true, if_true]
    rw [ih (idx + 1) (fun i hi => by
      have := h (i + 1) (by omega)
      have harith : idx + 1 + i = idx + (i + 1) := by omega
      rw [harith]
      exact this)]
    omega

/-- An arena that is in none of the searched slots is reported as "not found"
by `arena_free`, and nothing changes. -/
theorem arena_free_not_in_table (s : State) (h : Nat)
    (hmiss : ∀ i, i < s.num_arenas → s.arenas.getD i 0 ≠ h) :
    arena_free s h = some ([Msg.free_not_found], s) := by
  have hfind : find_arena s.arenas h s.num_arenas 0 = s.num_arenas := by
    rw [find_arena_miss s.arenas h s.num_arenas 0 (fun i hi => by
      rw [Nat.zero_add]
      exact hmiss i hi), Nat.zero_add]
  simp only [arena_free, hfind, if_true]

/-- After `a_cleanup`, `arena_free` of any non-`NULL` pointer is reported as
"not found" and leaves the state as it is. -/
theorem arena_free_after_cleanup (s : State) (h : Nat) (hh : h ≠ 0)
    (hnum : s.num_arenas ≤ MAX_ARENAS) :
    arena_free (a_cleanup s) h = some ([Msg.free_not_found], a_cleanup s) := by
  apply arena_free_not_in_table
  intro i hi
  rw [(a_cleanup_counters s).1] at hi
  have hempty : (a_cleanup s).arenas.getD i 0 = 0 := by
    unfold a_cleanup
    rw [a_cleanup_fold_arenas, if_pos (List.mem_range.mpr (by omega))]
  rw [hempty]
  exact fun hc => hh hc.symm

/-- After a successful `arena_free(h)` of an arena that is stored in exactly
one of the slots `0 .. num_arenas`, a second `arena_free(h)` is reported as
"not found" and leaves the state as it is. -/
theorem arena_free_twice (s s1 : State) (h : Nat)
    (hfirst : arena_free s h = some ([], s1))
    (huniq : ∀ i, i ≤ s.num_arenas → s.arenas.getD i 0 = h →
      i = find_arena s.arenas h s.num_arenas 0) :
    arena_free s1 h = some ([Msg.free_not_found], s1) := by
  have hle := find_arena_le s.arenas h s.num_arenas 0
  unfold arena_free at hfirst
  split_ifs at hfirst with hnf hroom
  · simp at hfirst
  · split at hfirst
    · exact Option.noConfusion hfirst
    · simp only [Option.some.injEq, Prod.mk.injEq, true_and] at hfirst
      subst hfirst
      apply arena_free_not_in_table
      intro i hi
      simp only at hi
      simp only [getD_set]
      rw [if_neg (by omega)]
      by_cases hidx : i = find_arena s.arenas h s.num_arenas 0
      · by_cases hlen : find_arena s.arenas h s.num_arenas 0 < s.arenas.length
        · rw [if_pos ⟨hidx, hlen⟩]
          intro hc
          have := huniq s.num_arenas (Nat.le_refl _) hc
          omega
        · rw [if_neg (fun hc => hlen hc.2)]
          intro hc
          have hget : s.arenas.getD i 0 = 0 := by
            simp only [List.getD_eq_getElem?_getD,
              List.getElem?_eq_none (by omega : s.arenas.length ≤ i), Option.getD_none]
          rw [hget] at hc
          subst hc
          exact absurd (huniq s.num_arenas (Nat.le_refl _) (by
            simp only [List.getD_eq_getElem?_getD,
              List.getElem?_eq_none (by omega : s.arenas.length ≤ s.num_arenas),
              Option.getD_none])) (by omega)
      · rw [if_neg (fun hc => hidx hc.1)]
        intro hc
        exact hidx (huniq i (by omega) hc)
  · split at hfirst <;> exact Option.noConfusion hfirst

/-- A `new_arena` that returns `NULL` in a state whose slot `arenas[num_arenas]`
is empty leaves the table and both counters as they were. -/
theorem new_arena_fails_clean (s s1 : State) (capacity atexit_r m_meta m_buf m_cp : Nat)
    (out : List Msg) (hslot : s.arenas.getD s.num_arenas 0 = 0)
    (h : new_arena s capacity atexit_r m_meta m_buf m_cp = some (0, out, s1)) :
    s1.arenas = s.arenas ∧ s1.num_arenas = s.num_arenas ∧
    s1.arena_name_idx = s.arena_name_idx := by
  obtain ⟨h1, h2, h3, _, _⟩ := register_cleanup_fields s atexit_r
  simp only [new_arena, h1, h2, h3] at h
  split_ifs at h with hfull hgt hmeta hbuf
  all_goals
    first
    | exact Option.noConfusion h
    | (simp only [Option.some.injEq, Prod.mk.injEq] at h
       first
       | exact absurd h.1 hmeta
       | (obtain ⟨_, _, hs⟩ := h
          subst hs
          first
          | exact ⟨h1, h2, h3⟩
          | exact ⟨set_null_of_null _ _ hslot, rfl, rfl⟩))

/-- The search loop reads the table only below its bound. -/
theorem find_arena_reads_lt (tbl : List Nat) (ar n idx : Nat) :
    ∀ i ∈ find_arena_reads tbl ar n idx, i < idx + n := by
  induction n generalizing idx with
  | zero => intro i hi; simp only [find_arena_reads, List.not_mem_nil] at hi
  | succ k ih =>
    intro i hi
    simp only [find_arena_reads, List.mem_cons] at hi
    rcases hi with hi | hi
    · omega
    · split_ifs at hi with hne
      · have := ih (idx + 1) i hi
        omega
      · simp only [List.not_mem_nil] at hi

/-- While the table is not full (`num_arenas < MAX_ARENAS`), every table index
that `arena_free` uses lies in `[0, MAX_ARENAS)`. -/
theorem arena_free_accesses_in_bounds (s : State) (ar : Nat) (hroom : s.num_arenas < MAX_ARENAS) :
    ∀ i ∈ arena_free_accesses s ar, i < MAX_ARENAS := by
  intro i hi
  have hle := find_arena_le s.arenas ar s.num_arenas 0
  simp only [arena_free_accesses, List.mem_append] at hi
  rcases hi with hi | hi
  · have := find_arena_reads_lt s.arenas ar s.num_arenas 0 i hi
    omega
  · split_ifs at hi with hnf
    · simp only [List.not_mem_nil] at hi
    · simp only [List.mem_cons, List.mem_singleton, List.not_mem_nil, or_false] at hi
      omega

/-- The store of line 167 inside the array: the address is written at index
`client_ptr_idx` and the slot count is incremented. -/
theorem register_store_ok (a : arena) (p : Nat) (hlt : a.client_ptr_idx < a.client_ptrs.length)
    (hsmall : a.client_ptr_idx + 1 < SIZE_RANGE) :
    register_store a p =
      some (p, { a with client_ptrs := a.client_ptrs.set a.client_ptr_idx p,
                        client_ptr_idx := a.client_ptr_idx + 1 }) := by
  simp only [register_store, if_pos hlt, Nat.mod_eq_of_lt hsmall]

/-- On an arena whose slot array is allocated with `client_ptr_array_size`
entries (at least one, fewer than `2 ^ 60`), `arena_register_ptr` either fails
(the array is full and `realloc` fails), returning `NULL` and leaving the arena
unchanged, or returns the given address with the slot list extended by it, the
slot count incremented, and the slot capacity doubled exactly when the array
was full; the slot count never exceeds the slot capacity. -/
theorem arena_register_ptr_total (ar : arena) (p : Nat) (ok : Bool)
    (hlen : ar.client_ptrs.length = ar.client_ptr_array_size)
    (hidx : ar.client_ptr_idx ≤ ar.client_ptr_array_size)
    (hpos : 0 < ar.client_ptr_array_size) (hsmall : ar.client_ptr_array_size < 2 ^ 60) :
    (ar.client_ptr_idx = ar.client_ptr_array_size ∧ ok = false ∧
      arena_register_ptr ar p ok = some (0, ar)) ∨
    ∃ ar1, arena_register_ptr ar p ok = some (p, ar1) ∧
      ar1.client_ptrs.take ar1.client_ptr_idx = ar.client_ptrs.take ar.client_ptr_idx ++ [p] ∧
      ar1.client_ptr_idx = ar.client_ptr_idx + 1 ∧
      ar1.client_ptr_array_size =
        (if ar.client_ptr_idx = ar.client_ptr_array_size then 2 * ar.client_ptr_array_size
         else ar.client_ptr_array_size) ∧
      ar1.client_ptrs.length = ar1.client_ptr_array_size ∧
      ar1.client_ptr_idx ≤ ar1.client_ptr_array_size ∧
      ar1.ptr = ar.ptr ∧ ar1.capacity = ar.capacity ∧ ar1.current = ar.current ∧
      ar1.auto_resize = ar.auto_resize := by
  have hM : ar.client_ptr_idx + 1 < SIZE_RANGE := by
    simp only [SIZE_RANGE]
    omega
  by_cases hfull : ar.client_ptr_idx = ar.client_ptr_array_size
  · cases ok with
    | false =>
      left
      refine ⟨hfull, rfl, ?_⟩
      simp only [arena_register_ptr, hfull, if_true, Bool.false_eq_true, if_false]
    | true =>
      right
      have hbytes : (8 * ar.client_ptr_array_size * 2) % SIZE_RANGE / 8 =
          2 * ar.client_ptr_array_size := by
        simp only [SIZE_RANGE]
        omega
      have hdouble : (ar.client_ptr_array_size * 2) % SIZE_RANGE =
          2 * ar.client_ptr_array_size := by
        simp only [SIZE_RANGE]
        omega
      have hgrown : (ar.client_ptrs ++ List.replicate ar.client_ptr_array_size 0).take
          ((8 * ar.client_ptr_array_size * 2) % SIZE_RANGE / 8) =
          ar.client_ptrs ++ List.replicate ar.client_ptr_array_size 0 := by
        rw [hbytes]
        apply List.take_of_length_le
        simp only [List.length_append, List.length_replicate, hlen]
        omega
      have hcall : arena_register_ptr ar p true =
          some (p, { ar with
            client_ptrs :=
              (ar.client_ptrs ++ List.replicate ar.client_ptr_array_size 0).set
                ar.client_ptr_idx p,
            client_ptr_array_size := 2 * ar.client_ptr_array_size,
            client_ptr_idx := ar.client_ptr_idx + 1 }) := by
        simp only [arena_register_ptr, if_pos hfull, if_true, hgrown, hdouble]
        exact register_store_ok
          { ar with
            client_ptrs := ar.client_ptrs ++ List.replicate ar.client_ptr_array_size 0,
            client_ptr_array_size := 2 * ar.client_ptr_array_size } p
          (by
            simp only [List.length_append, List.length_replicate, hlen]
            omega) hM
      refine ⟨_, hcall, ?_, rfl, ?_, ?_, ?_, rfl, rfl, rfl, rfl⟩
      · simp only
        rw [take_succ_set _ _ _ (by
          simp only [List.length_append, List.length_replicate, hlen]
          omega), List.take_append_of_le_length (by omega)]
      · simp only [if_pos hfull]
      · simp only [List.length_set, List.length_append, List.length_replicate, hlen]
        omega
      · simp only
        omega
  · right
    have hlt : ar.client_ptr_idx < ar.client_ptrs.length := by omega
    have hcall : arena_register_ptr ar p ok =
        some (p, { ar with client_ptrs := ar.client_ptrs.set ar.client_ptr_idx p,
                           client_ptr_idx := ar.client_ptr_idx + 1 }) := by
      simp only [arena_register_ptr, if_neg hfull]
      exact register_store_ok ar p hlt hM
    refine ⟨_, hcall, ?_, rfl, ?_, ?_, ?_, rfl, rfl, rfl, rfl⟩
    · simp only
      exact take_succ_set _ _ _ hlt
    · simp only [if_neg hfull]
    · simp only [List.length_set, hlen]
    · simp only
      omega

/-- An allocation that fits keeps `offset ≤ capacity`. -/
theorem a_malloc_within_fits (n r : Nat) (ar : arena) (m : Mem)
    (hcap : ar.capacity < SIZE_RANGE) (hfit : ar.current + n ≤ ar.capacity) :
    within_capacity (a_malloc n ar r m).2.1 := by
  have hsum : (ar.current + n) % SIZE_RANGE = ar.current + n := Nat.mod_eq_of_lt (by omega)
  unfold within_capacity a_malloc
  rw [hsum, if_neg (by omega)]
  simp only [a_malloc_bump, hsum]
  exact hfit

/-- An allocation that grows the arena keeps `offset ≤ capacity` when the
reallocation succeeds and `needed = offset + size` is below `2 ^ 30`. -/
theorem a_malloc_within_growth (n r : Nat) (ar : arena) (m : Mem)
    (hauto : ar.auto_resize ≠ 0) (hr : r ≠ 0)
    (hover : ar.capacity < ar.current + n) (hsmall : ar.current + n < 2 ^ 30) :
    within_capacity (a_malloc n ar r m).2.1 := by
  have hsum : (ar.current + n) % SIZE_RANGE = ar.current + n := by
    apply Nat.mod_eq_of_lt
    simp only [SIZE_RANGE]
    omega
  have hne : ar.current + n ≠ 0 := by omega
  have hcapnew := new_capacity_small (ar.current + n) (ar.current + n).log2
    (Nat.log2_self_le hne) Nat.lt_log2_self ((Nat.log2_lt hne).2 hsmall)
  have hlt : ar.current + n < 2 ^ ((ar.current + n).log2 + 1) := Nat.lt_log2_self
  have hres : ∀ size, (arena_resize ar size r m).1.current = ar.current ∧
      (arena_resize ar size r m).1.capacity = size := by
    intro size
    unfold arena_resize
    rw [if_neg hr]
    split_ifs <;> exact ⟨rfl, rfl⟩
  unfold within_capacity a_malloc
  rw [hsum, if_pos hover, if_pos hauto]
  simp only [a_malloc_bump, (hres _).1, (hres _).2, hsum, hcapnew]
  omega

/-- Resetting the cursor gives `offset ≤ capacity`. -/
theorem within_capacity_reset (ar : arena) : within_capacity { ar with current := 0 } := by
  unfold within_capacity
  exact Nat.zero_le _

/-- The pointer and the arena of `a_calloc` are those of `a_malloc`. -/
theorem a_calloc_pointer_arena (n r : Nat) (ar : arena) (m : Mem) :
    (a_calloc n ar r m).1 = (a_malloc n ar r m).1 ∧
    (a_calloc n ar r m).2.1 = (a_malloc n ar r m).2.1 :=
  ⟨rfl, rfl⟩

/-- When `a_malloc` returns `NULL`, `a_calloc` returns `NULL` and writes nothing:
the memory is the one `a_malloc` leaves. -/
theorem a_calloc_null (n r : Nat) (ar : arena) (m : Mem) (hp : (a_malloc n ar r m).1 = 0) :
    a_calloc n ar r m = (0, (a_malloc n ar r m).2.1, some (a_malloc n ar r m).2.2) := by
  simp only [a_calloc, hp, ne_eq, not_true_eq_false, if_false]

/-- When `a_malloc` returns a pointer whose range `[p, p + size)` lies inside the
buffer, the `memset` of `a_calloc` is defined: every byte of the range is zero
afterwards and every other byte is as `a_malloc` leaves it. -/
theorem a_calloc_zero_fill (n r : Nat) (ar : arena) (m : Mem)
    (hp : (a_malloc n ar r m).1 ≠ 0)
    (hlo : (a_malloc n ar r m).2.1.ptr ≤ (a_malloc n ar r m).1)
    (hhi : (a_malloc n ar r m).1 + n ≤
      (a_malloc n ar r m).2.1.ptr + (a_malloc n ar r m).2.1.capacity) :
    ∃ m1, (a_calloc n ar r m).2.2 = some m1 ∧
      (∀ a, (a_malloc n ar r m).1 ≤ a → a < (a_malloc n ar r m).1 + n → m1.bytes a = 0) ∧
      (∀ a, ¬ ((a_malloc n ar r m).1 ≤ a ∧ a < (a_malloc n ar r m).1 + n) →
        m1.bytes a = (a_malloc n ar r m).2.2.bytes a) := by
  refine ⟨{ (a_malloc n ar r m).2.2 with
      bytes := fun a => if (a_malloc n ar r m).1 ≤ a ∧ a < (a_malloc n ar r m).1 + n then 0
                        else (a_malloc n ar r m).2.2.bytes a }, ?_, ?_, ?_⟩
  · simp only [a_calloc, hp, ne_eq, not_false_eq_true, if_true, hlo, hhi, and_self]
  · intro a h1 h2
    simp only [h1, h2, and_self, if_true]
  · intro a hout
    simp only [hout, if_false]

/-- A request that fits (`offset + n ≤ capacity`, buffer inside the 64-bit
address space, non-`NULL` base): `a_calloc` returns `ptr + offset`, advances
the cursor by `n`, and its memory is the old one with exactly the bytes of
`[ptr + offset, ptr + offset + n)` set to zero. -/
theorem a_calloc_fits (ar : arena) (n r : Nat) (m : Mem)
    (hbase : 0 < ar.ptr) (hbuf : ar.ptr + ar.capacity < SIZE_RANGE)
    (hfit : ar.current + n ≤ ar.capacity) :
    a_calloc n ar r m =
      (ar.ptr + ar.current, { ar with current := ar.current + n },
        some { m with bytes := fun a =>
          if ar.ptr + ar.current ≤ a ∧ a < ar.ptr + ar.current + n then 0 else m.bytes a }) := by
  have hsum : (ar.current + n) % SIZE_RANGE = ar.current + n :=
    Nat.mod_eq_of_lt (by omega)
  have hback : (ar.current + n + (SIZE_RANGE - n)) % SIZE_RANGE = ar.current := by
    have h1 : ar.current + n + (SIZE_RANGE - n) = ar.current + SIZE_RANGE := by omega
    rw [h1, Nat.add_mod_right]
    exact Nat.mod_eq_of_lt (by omega)
  have hptr : (ar.ptr + ar.current) % SIZE_RANGE = ar.ptr + ar.current :=
    Nat.mod_eq_of_lt (by omega)
  have hmalloc : a_malloc n ar r m =
      (ar.ptr + ar.current, { ar with current := ar.current + n }, m) := by
    unfold a_malloc
    rw [hsum, if_neg (by omega)]
    simp only [a_malloc_bump, hsum, hback, hptr]
  have hne : ar.ptr + ar.current ≠ 0 := by omega
  have hin : ar.ptr ≤ ar.ptr + ar.current ∧
      ar.ptr + ar.current + n ≤ ar.ptr + ar.capacity := by omega
  simp only [a_calloc, hmalloc, hne, ne_eq, not_false_eq_true, if_true, hin, and_self]

/-! ### The claims -/

/-- C1: when `offset + n ≤ capacity`, `a_malloc(n)` returns the address
`buffer + old_offset`, leaves `offset = old_offset + n`, and changes nothing
else: base, capacity, `auto_resize` and the slot list stay as they were, the
memory is untouched and the result does not depend on `realloc` (no growth). -/
theorem a_malloc_fits (ar : arena) (n r : Nat) (m : Mem)
    (hbuf : ar.ptr + ar.capacity < SIZE_RANGE)
    (hfit : ar.current + n ≤ ar.capacity) :
    a_malloc n ar r m = (ar.ptr + ar.current, { ar with current := ar.current + n }, m) := by
  have hcap : ar.capacity < SIZE_RANGE := by omega
  have hsum : (ar.current + n) % SIZE_RANGE = ar.current + n :=
    Nat.mod_eq_of_lt (by omega)
  have hback : (ar.current + n + (SIZE_RANGE - n)) % SIZE_RANGE = ar.current := by
    have h1 : ar.current + n + (SIZE_RANGE - n) = ar.current + SIZE_RANGE := by omega
    rw [h1, Nat.add_mod_right]
    exact Nat.mod_eq_of_lt (by omega)
  have hptr : (ar.ptr + ar.current) % SIZE_RANGE = ar.ptr + ar.current :=
    Nat.mod_eq_of_lt (by omega)
  unfold a_malloc
  rw [hsum, if_neg (by omega)]
  simp only [a_malloc_bump, hsum, hback, hptr]

/-- Witness of C1 (`a_malloc_fits`) on `ex_arena` with a request of 10 bytes. -/
theorem a_malloc_fits_witness :
    ex_arena.ptr + ex_arena.capacity < SIZE_RANGE ∧ ex_arena.current + 10 ≤ ex_arena.capacity ∧
    a_malloc 10 ex_arena 0 ex_mem =
      (ex_arena.ptr + ex_arena.current, { ex_arena with current := ex_arena.current + 10 }, ex_mem) :=
  ⟨by decide, by decide, a_malloc_fits ex_arena 10 0 ex_mem (by decide) (by decide)⟩

/-- C2 (code at the failing input): with `offset = 1`, `capacity = 16` and a
request of `2 ^ 32` bytes, `needed = 2 ^ 32 + 1` lies between `2 ^ 32` and
`2 ^ 33`; `LOG2` yields `0`, the new capacity is `1 << 1 = 2` instead of
`2 ^ 33`, the reallocation succeeds, and the bump step leaves
`offset = 2 ^ 32 + 1`, far above the capacity `2`. -/
theorem a_malloc_growth_too_small :
    (2 ^ 32 ≤ 2 ^ 32 + 1 ∧ 2 ^ 32 + 1 < 2 ^ 33) ∧
    LOG2 (2 ^ 32 + 1) = 0 ∧
    (a_malloc (2 ^ 32) { ex_arena with current := 1 } 7000 ex_mem).2.1.capacity = 2 ∧
    (a_malloc (2 ^ 32) { ex_arena with current := 1 } 7000 ex_mem).2.1.current = 2 ^ 32 + 1 ∧
    (a_malloc (2 ^ 32) { ex_arena with current := 1 } 7000 ex_mem).1 = 7001 := by
  decide

/-- C3 (code at the failing input): `capacity = 16`, `offset = 10`,
`auto_resize` on, request of 10 bytes, `realloc` returns `NULL`.  `a_malloc`
still returns a pointer (`5010`, not `NULL`) and advances `offset` to 20,
above the unchanged capacity 16. -/
theorem a_malloc_ignores_failed_growth :
    (a_malloc 10 { ex_arena with current := 10 } 0 ex_mem).1 = 5010 ∧
    (a_malloc 10 { ex_arena with current := 10 } 0 ex_mem).2.1.current = 20 ∧
    (a_malloc 10 { ex_arena with current := 10 } 0 ex_mem).2.1.capacity = 16 := by
  decide

/-- C4 (code at the failing input): after `A = new_arena`, `B = new_arena`,
`arena_free(A)` the table is `[NULL, B, NULL, ...]` with `num_arenas = 1`: the
vacated slot 0 was filled with `arenas[2] = NULL`, not with the last live
entry, and `B` sits at index 1, outside the searched range.  `B` is still
allocated, yet `arena_free(B)` reports "not found", and the next `new_arena`
overwrites the table entry of `B`. -/
theorem arena_free_strands_last_arena :
    run_two.map (fun s => (s.arenas.take 3, s.num_arenas)) = some ([1000, 2000, 0], 2) ∧
    run_two_free_first.map (fun s => (s.arenas.take 3, s.num_arenas, (s.heap 2000).isSome)) =
      some ([0, 2000, 0], 1, true) ∧
    (run_two_free_first.bind fun s => (arena_free s 2000).map fun c =>
        (c.1, c.2.arenas.take 3, c.2.num_arenas)) =
      some ([Msg.free_not_found], [0, 2000, 0], 1) ∧
    (run_two_free_first.bind fun s => (new_arena s 16 0 3000 7000 9200).map fun c =>
        (c.1, c.2.2.arenas.take 3, c.2.2.arenas.count 2000, (c.2.2.heap 2000).isSome)) =
      some (3000, [0, 3000, 0], 0, true) := by
  decide

/-- C5: for an arena with one registered slot `p` whose value lies at or above
the buffer base (in particular inside the buffer), a successful `arena_resize`
that returns a different base address `r` leaves the slot's value increased by
exactly `r - old_base` and sets the base to `r` and the capacity to `size`; a
successful `arena_resize` with unchanged base leaves the whole memory as it
was and still sets the capacity to `size`.  Addresses are 64-bit values: the
slot's value is below `2 ^ 64`, and so is its new address
`r + (value - old_base)`, as it is whenever the block returned by `realloc`
contains the slot's offset. -/
theorem arena_resize_one_slot (ar : arena) (size r p : Nat) (rest : List Nat) (m : Mem)
    (hidx : ar.client_ptr_idx = 1) (hslots : ar.client_ptrs = p :: rest)
    (hv : m.slots p < SIZE_RANGE) (hlo : ar.ptr ≤ m.slots p)
    (hnew : r + (m.slots p - ar.ptr) < SIZE_RANGE) (hr0 : r ≠ 0) :
    (r ≠ ar.ptr →
      ((arena_resize ar size r m).2.slots p : Int) = (m.slots p : Int) + ((r : Int) - ar.ptr) ∧
      (arena_resize ar size r m).1.ptr = r ∧
      (arena_resize ar size r m).1.capacity = size) ∧
    (r = ar.ptr →
      (arena_resize ar size r m).2 = m ∧
      (arena_resize ar size r m).1.ptr = ar.ptr ∧
      (arena_resize ar size r m).1.capacity = size) := by
  constructor
  · intro hmove
    simp only [arena_resize, if_neg hr0, hmove, ne_eq, not_false_eq_true, if_true, hidx, hslots,
      List.take_succ_cons, List.take_zero, and_true]
    rw [rebase_apply _ _ _ _ hv]
    simp only [List.count_cons_self, List.count_nil, SIZE_RANGE] at *
    omega
  · intro hsame
    subst hsame
    simp only [arena_resize, if_neg hr0, ne_eq, not_true_eq_false, if_false, and_self]

/-- Witness of C5 (`arena_resize_one_slot`): `ex_arena` with the slot at
address 40 registered, holding 5005; the buffer moves from 5000 to 7000. -/
theorem arena_resize_one_slot_witness :
    (((arena_resize { ex_arena with client_ptrs := [40, 0, 0, 0], client_ptr_idx := 1 }
        32 7000 ex_mem).2.slots 40 : Nat) : Int) = ((ex_mem.slots 40 : Nat) : Int) + (7000 - 5000) :=
  ((arena_resize_one_slot { ex_arena with client_ptrs := [40, 0, 0, 0], client_ptr_idx := 1 }
      32 7000 40 [0, 0, 0] ex_mem rfl rfl (by decide) (by decide) (by decide) (by decide)).1
    (by decide)).1

/-- C6 (counterexample): the slot at address 40 holds 5005 and the buffer moves
from 5000 to 7000.  Registered once, the slot ends at `7005 = 5005 + 2000`;
registered twice through `arena_register_ptr`, it ends at `9005`. -/
theorem double_registration_rebased_twice :
    ((arena_register_ptr ex_arena 40 true).map fun a =>
        (arena_resize a.2 32 7000 ex_mem).2.slots 40) = some 7005 ∧
    ((arena_register_ptr ex_arena 40 true).bind fun a =>
        (arena_register_ptr a.2 40 true).map fun b =>
          (b.1, b.2.client_ptrs, b.2.client_ptr_idx,
            (arena_resize b.2 32 7000 ex_mem).2.slots 40)) =
      some (40, [40, 40, 0, 0], 2, 9005) := by
  decide

/-- C6 (amended): when the slot address `p` occurs twice among the registered
slots, a resize that moves the buffer to `r` adds `r - old_base` to the
variable at `p` twice: it ends at `old value + 2 * (r - old_base)`, provided
that this is a 64-bit address. -/
theorem arena_resize_double_registration (ar : arena) (size r p : Nat) (m : Mem)
    (hcount : (ar.client_ptrs.take ar.client_ptr_idx).count p = 2)
    (hr0 : r ≠ 0) (hmove : r ≠ ar.ptr)
    (hbase : ar.ptr < SIZE_RANGE) (hv : m.slots p < SIZE_RANGE)
    (hlo : (0 : Int) ≤ (m.slots p : Int) + 2 * ((r : Int) - ar.ptr))
    (hhi : (m.slots p : Int) + 2 * ((r : Int) - ar.ptr) < (SIZE_RANGE : Int)) :
    ((arena_resize ar size r m).2.slots p : Int) =
      (m.slots p : Int) + 2 * ((r : Int) - ar.ptr) := by
  simp only [arena_resize, if_neg hr0, hmove, ne_eq, not_false_eq_true, if_true]
  rw [rebase_apply _ _ _ _ hv, hcount]
  simp only [SIZE_RANGE] at *
  push_cast at hhi
  omega

/-- Witness of the amended C6 (`arena_resize_double_registration`). -/
theorem arena_resize_double_registration_witness :
    (((arena_resize { ex_arena with client_ptrs := [40, 40, 0, 0], client_ptr_idx := 2 }
        32 7000 ex_mem).2.slots 40 : Nat) : Int) = ((ex_mem.slots 40 : Nat) : Int) + 2 * (7000 - 5000) :=
  arena_resize_double_registration
    { ex_arena with client_ptrs := [40, 40, 0, 0], client_ptr_idx := 2 } 32 7000 40 ex_mem
    (by decide) (by decide) (by decide) (by decide) (by decide) (by decide) (by decide)

/-- C7 (code at the failing input): `capacity = 16`, `offset = 10`,
`auto_resize` off, request of `2 ^ 64 - 5` bytes.  The sum `offset + size`
exceeds the capacity, but the `size_t` sum wraps around to 5, the test of
line 110 is false, and `a_malloc` returns the pointer `5010` and sets
`offset = 5` instead of failing with the state unchanged. -/
theorem a_malloc_wraps_when_fixed :
    16 < 10 + (2 ^ 64 - 5) ∧
    (a_malloc (2 ^ 64 - 5) { ex_arena with current := 10, auto_resize := 0 } 0 ex_mem).1 = 5010 ∧
    (a_malloc (2 ^ 64 - 5) { ex_arena with current := 10, auto_resize := 0 } 0 ex_mem).2.1.current
      = 5 := by
  decide

/-- C8 (code at the failing input): `capacity = 16`, `offset = 10`; the first
call requests `2 ^ 64 - 5` bytes and returns `5010` (offset 10), wrapping the
cursor to 5; the second call requests 6 bytes and returns `5005` (offset 5).
The second range `[5005, 5011)` starts before the first one and contains its
first byte `5010`. -/
theorem a_malloc_successive_overlap :
    (a_malloc (2 ^ 64 - 5) { ex_arena with current := 10 } 0 ex_mem).1 = 5010 ∧
    (a_malloc 6 (a_malloc (2 ^ 64 - 5) { ex_arena with current := 10 } 0 ex_mem).2.1 0 ex_mem).1
      = 5005 ∧
    (a_malloc 6 (a_malloc (2 ^ 64 - 5) { ex_arena with current := 10 } 0 ex_mem).2.1 0
      ex_mem).2.1.ptr = 5000 ∧
    (5005 ≤ 5010 ∧ 5010 < 5005 + 6) := by
  decide

/-- C9 (code at the failing input): `A`, `B` are created, 10 bytes are
allocated from `B`, `A` is freed and `C` is created.  `new_arena` stores `C`
over the table entry of `B`, so `B`, created and never destroyed, is
in no table slot; `arena_reset(B)` reports "not found" and the offset of `B`
stays 10. -/
theorem arena_reset_misses_live_arena :
    run_overwrite.map (fun s => (s.arenas.take 3, s.num_arenas, (s.heap 2000).map arena.current)) =
      some ([0, 3000, 0], 2, some 10) ∧
    (run_overwrite.bind fun s => (arena_reset s 2000).map fun c =>
        (c.1, (c.2.heap 2000).map arena.current)) =
      some ([Msg.reset_not_found], some 10) := by
  decide

/-- C15: after `a_cleanup` every one of the `MAX_ARENAS` table slots is empty
(`NULL`), and `a_cleanup` is idempotent: running it a second time changes
nothing. -/
theorem a_cleanup_idempotent (s : State) :
    (∀ i, i < MAX_ARENAS → (a_cleanup s).arenas.getD i 0 = 0) ∧
    a_cleanup (a_cleanup s) = a_cleanup s := by
  have hempty : ∀ i, i < MAX_ARENAS → (a_cleanup s).arenas.getD i 0 = 0 := by
    intro i hi
    unfold a_cleanup
    rw [a_cleanup_fold_arenas, if_pos (List.mem_range.mpr hi)]
  refine ⟨hempty, ?_⟩
  have hnull := a_cleanup_fold_null (List.range MAX_ARENAS) (a_cleanup s)
    (fun i hi => hempty i (List.mem_range.mp hi))
  exact hnull

/-- C17 (code at the failing input): `capacity = 16`, `offset = 10`, buffer at
5000.  For a request of `2 ^ 64 - 5` bytes `a_malloc` passes its wrapped bounds
test and returns 5010, and line 126 runs `memset(5010, 0, 2 ^ 64 - 5)`, a range
that ends far beyond the buffer end 5016: the zero-fill has no defined outcome.
For a request of 10 bytes with `realloc` returning `NULL`, `a_malloc` again
returns 5010 and `memset` writes `[5010, 5020)`, past the end 5016 of the
buffer. -/
theorem a_calloc_overruns_buffer :
    (a_malloc (2 ^ 64 - 5) { ex_arena with current := 10 } 0 ex_mem).1 = 5010 ∧
    (a_calloc (2 ^ 64 - 5) { ex_arena with current := 10 } 0 ex_mem).1 = 5010 ∧
    (a_calloc (2 ^ 64 - 5) { ex_arena with current := 10 } 0 ex_mem).2.2.isSome = false ∧
    5000 + 16 < 5010 + (2 ^ 64 - 5) ∧
    (a_calloc 10 { ex_arena with current := 10 } 0 ex_mem).1 = 5010 ∧
    (a_calloc 10 { ex_arena with current := 10 } 0 ex_mem).2.1.capacity = 16 ∧
    (a_calloc 10 { ex_arena with current := 10 } 0 ex_mem).2.2.isSome = false ∧
    5000 + 16 < 5010 + 10 := by
  decide

/-- C13: a successful `new_arena(capacity)` (the table is not full, the struct
and the buffer are allocated) returns the struct address; the new arena has
`offset = 0`, the requested capacity, `auto_resize = 1`, its buffer at the
address returned by `malloc` and no registered slot; its address is stored in
the table slot `arenas[num_arenas]`, the other slots are unchanged and
`num_arenas` is incremented by one. -/
theorem new_arena_creates (s : State) (capacity atexit_r m_meta m_buf m_cp : Nat)
    (hlen : s.arenas.length = MAX_ARENAS)
    (hroom : s.num_arenas < MAX_ARENAS) (hmeta : m_meta ≠ 0) (hbuf : m_buf ≠ 0) :
    ∃ out s1 ar, new_arena s capacity atexit_r m_meta m_buf m_cp = some (m_meta, out, s1) ∧
      s1.heap m_meta = some ar ∧
      ar.current = 0 ∧ ar.capacity = capacity ∧ ar.auto_resize = 1 ∧ ar.ptr = m_buf ∧
      ar.client_ptr_idx = 0 ∧ ar.client_ptrs.take ar.client_ptr_idx = [] ∧
      s1.arenas.getD s.num_arenas 0 = m_meta ∧
      (∀ j, j ≠ s.num_arenas → s1.arenas.getD j 0 = s.arenas.getD j 0) ∧
      s1.num_arenas = s.num_arenas + 1 := by
  obtain ⟨out, s1, hcall, htbl, hnum, _, _, hheap⟩ :=
    new_arena_ok s capacity atexit_r m_meta m_buf m_cp hroom hmeta hbuf
  refine ⟨out, s1,
    { ptr := m_buf, name := s.arena_name_idx, capacity := capacity, current := 0,
      client_ptrs := if m_cp = 0 then [] else List.replicate 4 0,
      client_ptr_idx := 0, client_ptr_array_size := 4, auto_resize := 1 },
    hcall, by rw [hheap]; simp only [if_true], rfl, rfl, rfl, rfl, rfl, rfl, ?_, ?_, hnum⟩
  · rw [htbl, getD_set, if_pos ⟨rfl, by omega⟩]
  · intro j hj
    rw [htbl, getD_set, if_neg (fun hc => hj hc.1)]

/-- Witness of C13 (`new_arena_creates`): the first `new_arena(16)` at program
start. -/
theorem new_arena_creates_witness :
    ∃ out s1 ar, new_arena State.init 16 0 1000 5000 9000 = some (1000, out, s1) ∧
      s1.heap 1000 = some ar ∧
      ar.current = 0 ∧ ar.capacity = 16 ∧ ar.auto_resize = 1 ∧ ar.ptr = 5000 ∧
      ar.client_ptr_idx = 0 ∧ ar.client_ptrs.take ar.client_ptr_idx = [] ∧
      s1.arenas.getD State.init.num_arenas 0 = 1000 ∧
      (∀ j, j ≠ State.init.num_arenas → s1.arenas.getD j 0 = State.init.arenas.getD j 0) ∧
      s1.num_arenas = State.init.num_arenas + 1 :=
  new_arena_creates State.init 16 0 1000 5000 9000 (by decide) (by decide) (by decide) (by decide)

/-- C12: starting from the empty registry, `MAX_ARENAS` calls of `new_arena`
whose struct and buffer allocations succeed all return their (non-`NULL`)
struct address and fill the table with these addresses; every further call
returns `NULL` with the diagnostic "Arena limit reached!" and leaves the table,
the counters, all arena structs and the memory unchanged. -/
theorem new_arena_limit (calls : List NewCall) (last : NewCall)
    (hlen : calls.length = MAX_ARENAS) (hok : ∀ c ∈ calls, c.m_meta ≠ 0 ∧ c.m_buf ≠ 0) :
    ∃ s, new_arena_seq State.init calls = some (calls.map (fun c => c.m_meta), s) ∧
      (∀ p ∈ calls.map (fun c => c.m_meta), p ≠ 0) ∧
      s.arenas = calls.map (fun c => c.m_meta) ∧ s.num_arenas = MAX_ARENAS ∧
      ∃ out s1,
        new_arena s last.capacity last.atexit_r last.m_meta last.m_buf last.m_cp =
          some (0, out, s1) ∧
        out.getLast? = some Msg.limit_reached ∧
        s1.arenas = s.arenas ∧ s1.num_arenas = s.num_arenas ∧
        s1.arena_name_idx = s.arena_name_idx ∧ s1.heap = s.heap ∧ s1.mem = s.mem := by
  obtain ⟨s, hseq, hnum, htbl⟩ := new_arena_seq_ok calls State.init
    (by simp only [State.init, List.length_replicate])
    (by simp only [State.init, Nat.zero_add, hlen, Nat.le_refl]) hok
  have hnum2 : s.num_arenas = MAX_ARENAS := by
    rw [hnum, hlen]
    simp only [State.init, Nat.zero_add]
  have htbl2 : s.arenas = calls.map (fun c => c.m_meta) := by
    rw [htbl, hlen]
    simp only [State.init, List.take_zero, List.nil_append, Nat.zero_add]
    rw [List.drop_of_length_le (by simp only [List.length_replicate, Nat.le_refl]),
      List.append_nil]
  refine ⟨s, hseq, ?_, htbl2, hnum2, ?_⟩
  · intro p hp
    obtain ⟨c, hc, hcp⟩ := List.mem_map.mp hp
    rw [← hcp]
    exact (hok c hc).1
  · exact new_arena_full s last.capacity last.atexit_r last.m_meta last.m_buf last.m_cp hnum2

set_option maxRecDepth 100000 in
/-- Witness of C12 (`new_arena_limit`): the run `ex_calls MAX_ARENAS`, followed
by one more call whose allocations would succeed. -/
theorem new_arena_limit_witness :
    ∃ s, new_arena_seq State.init (ex_calls MAX_ARENAS) =
        some ((ex_calls MAX_ARENAS).map (fun c => c.m_meta), s) ∧
      (∀ p ∈ (ex_calls MAX_ARENAS).map (fun c => c.m_meta), p ≠ 0) ∧
      s.arenas = (ex_calls MAX_ARENAS).map (fun c => c.m_meta) ∧ s.num_arenas = MAX_ARENAS ∧
      ∃ out s1, new_arena s 16 0 3000 7000 9000 = some (0, out, s1) ∧
        out.getLast? = some Msg.limit_reached ∧
        s1.arenas = s.arenas ∧ s1.num_arenas = s.num_arenas ∧
        s1.arena_name_idx = s.arena_name_idx ∧ s1.heap = s.heap ∧ s1.mem = s.mem :=
  new_arena_limit (ex_calls MAX_ARENAS)
    { capacity := 16, atexit_r := 0, m_meta := 3000, m_buf := 7000, m_cp := 9000 }
    (by decide) (by decide)

set_option maxRecDepth 100000 in
/-- C11 (code at the failing input): after `A = new_arena`, `B = new_arena`,
`arena_free(A)`, the arena `B` is live (allocated and stored in the table), but
`arena_free(B)` reports "not found" and removes nothing: `B` stays allocated
and in the table.  In the same run a second `arena_free(A)` and an
`arena_free(B)` issued after `a_cleanup` are reported as "not found" and leave
the table and the count unchanged. -/
theorem arena_free_keeps_live_arena :
    run_two_free_first.map (fun s => ((s.heap 2000).isSome, s.arenas.take 3, s.num_arenas)) =
      some (true, [0, 2000, 0], 1) ∧
    (run_two_free_first.bind fun s => (arena_free s 2000).map fun c =>
        (c.1, (c.2.heap 2000).isSome, c.2.arenas.take 3, c.2.num_arenas)) =
      some ([Msg.free_not_found], true, [0, 2000, 0], 1) ∧
    (run_two_free_first.bind fun s => (arena_free s 1000).map fun c =>
        (c.1, decide (c.2.arenas = s.arenas), decide (c.2.num_arenas = s.num_arenas))) =
      some ([Msg.free_not_found], true, true) ∧
    (run_two.bind fun s => (arena_free (a_cleanup s) 2000).map fun c =>
        (c.1, decide (c.2.arenas = (a_cleanup s).arenas),
          decide (c.2.num_arenas = (a_cleanup s).num_arenas))) =
      some ([Msg.free_not_found], true, true) := by
  decide

/-- C14 (code at the failing input): after `A = new_arena`, `B = new_arena`,
`arena_free(A)` the table is `[NULL, B, NULL, ...]` with `num_arenas = 1`.  A
`new_arena` whose struct allocation fails, and likewise one whose buffer
allocation fails, returns `NULL` but has written `NULL` into
`arenas[num_arenas]`: the table is `[NULL, NULL, NULL, ...]` afterwards, the
entry of the still allocated `B` is gone. -/
theorem new_arena_failure_erases_entry :
    run_two_free_first.map (fun s => (s.arenas.take 3, s.num_arenas, s.arena_name_idx)) =
      some ([0, 2000, 0], 1, 2) ∧
    (run_two_free_first.bind fun s => (new_arena s 16 0 0 0 0).map fun c =>
        (c.1, c.2.1, c.2.2.arenas.take 3, (c.2.2.heap 2000).isSome)) =
      some (0, [Msg.metadata_failed], [0, 0, 0], true) ∧
    (run_two_free_first.bind fun s => (new_arena s 16 0 3000 0 0).map fun c =>
        (c.1, c.2.1, c.2.2.arenas.take 3, (c.2.2.heap 2000).isSome)) =
      some (0, [Msg.buffer_failed], [0, 0, 0], true) := by
  decide

/-- C16 (code at the failing input): `new_arena(16)` succeeds while its third
`malloc` (the slot array, line 71, not checked) returns `NULL`: the arena has
`client_ptrs = NULL`, slot count 0 and slot capacity 4.  `arena_register_ptr`
on this arena does not call `realloc` (the array is not full) and writes
`client_ptrs[0]` through the `NULL` pointer: it neither fails cleanly nor
succeeds (no result, whatever `realloc` would return). -/
theorem arena_register_ptr_null_array :
    (new_arena State.init 16 0 1000 5000 0).map (fun c =>
        (c.1, (c.2.2.heap 1000).map fun a =>
          (a.client_ptrs, a.client_ptr_idx, a.client_ptr_array_size))) =
      some (1000, some ([], 0, 4)) ∧
    ((new_arena State.init 16 0 1000 5000 0).bind fun c =>
        (c.2.2.heap 1000).map fun a =>
          ((arena_register_ptr a 40 true).isSome, (arena_register_ptr a 40 false).isSome)) =
      some (false, false) := by
  decide

/-- C18 (code at the failing input): the arena with `capacity = 16` and
`offset = 10` satisfies `offset ≤ capacity`; after `a_malloc(10)` (and likewise
`a_calloc(10)`) with `auto_resize` on and `realloc` returning `NULL`, the
offset is 20 and the capacity still 16: the invariant is broken. -/
theorem a_malloc_breaks_within_capacity :
    within_capacity ex_arena ∧
    within_capacity { ex_arena with current := 10 } ∧
    ¬ within_capacity (a_malloc 10 { ex_arena with current := 10 } 0 ex_mem).2.1 ∧
    ¬ within_capacity (a_calloc 10 { ex_arena with current := 10 } 0 ex_mem).2.1 := by
  decide

set_option maxRecDepth 100000 in
/-- C19 (code at the failing input): with `MAX_ARENAS` live arenas in the table
(`num_arenas = 100`), `arena_free` of the arena in slot 1 reads the slots 0 and
1 in its search and then reads and writes `arenas[100]`, an index outside
`[0, MAX_ARENAS)`; the call has no defined result. -/
theorem arena_free_full_table_out_of_bounds :
    run_full.map (fun s => (s.num_arenas, occupied s)) = some (100, 100) ∧
    run_full.map (fun s => arena_free_accesses s 1001) = some [0, 1, 1, 100, 1, 100] ∧
    run_full.map (fun s => (arena_free_accesses s 1001).all fun i => decide (i < MAX_ARENAS)) =
      some false ∧
    (run_full.bind fun s => arena_free s 1001).isSome = false := by
  decide

set_option maxRecDepth 100000 in
/-- C20 (code at the failing input): after `new_arena` and `a_cleanup` the table
is empty but `num_arenas` is still 1; after `MAX_ARENAS` calls of `new_arena`
and `a_cleanup` the table is empty, `num_arenas` is still 100 and the next
`new_arena` is rejected with "Arena limit reached!".  The count is also wrong
after `A = new_arena`, `B = new_arena`, `arena_free(A)`, `C = new_arena`:
`num_arenas = 2` with one occupied slot. -/
theorem a_cleanup_keeps_count :
    (occupied (a_cleanup ex_state), (a_cleanup ex_state).num_arenas) = (0, 1) ∧
    run_full.map (fun s => (occupied (a_cleanup s), (a_cleanup s).num_arenas)) =
      some (0, 100) ∧
    (run_full.bind fun s => (new_arena (a_cleanup s) 16 0 3000 7000 9000).map fun c =>
        (c.1, c.2.1, occupied c.2.2)) = some (0, [Msg.limit_reached], 0) ∧
    (run_two_free_first.bind fun s => (new_arena s 16 0 3000 7000 9200).map fun c =>
        (occupied c.2.2, c.2.2.num_arenas)) = some (1, 2) := by
  decide

end MmmArena
